import Mathlib

/-!
Verification of the AI-empathy repository's statistics engine
(`src/LIWC/liwc_Anova_results_table.py` and `src/LIWC/empathy_score.py`)
against its natural-language specification.

The Python code is embedded shallowly: floats become exact rationals (`ℚ`),
`statistics.mean` becomes sum/length, list comprehensions become `List.map`
and `List.filter`, and the CSV-reading loop becomes a pure function over an
abstract list of rows.  All definitions are computable, so concrete inputs
evaluate inside proofs (by `decide` where no rational arithmetic occurs and
by `norm_num` otherwise).
-/

namespace AIEmpathy

/-- `statistics.mean`: sum divided by length.  The Python library raises on an
empty list; every call site in the repository guards with a positive-length
check, and on `[]` this Lean model returns `0/0 = 0`. -/
def mean (l : List ℚ) : ℚ := l.sum / l.length

/-- The sublist of non-empty groups, mirroring the `if len(group) > 0` filter
used when `calculate_f_statistic` and `calculate_eta_squared` collect
`group_means`, `group_sizes` and `all_values`. -/
def nonemptyGroups (groups : List (List ℚ)) : List (List ℚ) :=
  groups.filter (fun g => decide (0 < g.length))

/-- `all_values`: the concatenation (`extend`) of all non-empty groups. -/
def allValues (groups : List (List ℚ)) : List ℚ :=
  (nonemptyGroups groups).flatten

/-- `grand_mean = statistics.mean(all_values)`. -/
def grandMean (groups : List (List ℚ)) : ℚ := mean (allValues groups)

/-- Between-groups sum of squares:
`ssb = sum(n * (mean - grand_mean) ** 2 for mean, n in zip(group_means, group_sizes))`.
`group_means` and `group_sizes` are built in one pass over the non-empty
groups, so the zip pairs each group's mean with that same group's size. -/
def ssb (groups : List (List ℚ)) (grand : ℚ) : ℚ :=
  ((nonemptyGroups groups).map (fun g => (g.length : ℚ) * (mean g - grand) ^ 2)).sum

/-- Within-groups sum of squares: groups with `len(group) > 1` contribute
`sum((x - group_mean) ** 2 for x in group)`; all other groups contribute 0. -/
def ssw (groups : List (List ℚ)) : ℚ :=
  (groups.map (fun g =>
    if 1 < g.length then (g.map (fun x => (x - mean g) ^ 2)).sum else 0)).sum

/-- `df_between = len(groups) - 1` (counting empty groups, as the code does). -/
def dfBetween (groups : List (List ℚ)) : ℤ := (groups.length : ℤ) - 1

/-- `df_within = len(all_values) - len(groups)` (counting empty groups, so this
can be negative). -/
def dfWithin (groups : List (List ℚ)) : ℤ :=
  ((allValues groups).length : ℤ) - groups.length

/-- The p-value bucket applied to the computed F statistic. -/
def pBucket (f : ℚ) : ℚ :=
  if 7.0 < f then 0.001
  else if 4.0 < f then 0.01
  else if 2.5 < f then 0.05
  else 0.1

/-- `msb = ssb / df_between`. -/
def msb (groups : List (List ℚ)) : ℚ :=
  ssb groups (grandMean groups) / (dfBetween groups : ℚ)

/-- `msw = ssw / df_within if df_within > 0 else 1`. -/
def msw (groups : List (List ℚ)) : ℚ :=
  if 0 < dfWithin groups then ssw groups / (dfWithin groups : ℚ) else 1

/-- `f_stat = msb / msw if msw > 0 else 0`. -/
def fStat (groups : List (List ℚ)) : ℚ :=
  if 0 < msw groups then msb groups / msw groups else 0

/-- `calculate_f_statistic(groups)` from `liwc_Anova_results_table.py`. -/
def calculate_f_statistic (groups : List (List ℚ)) : ℚ × ℚ :=
  if groups.length < 2 then (0, 1)
  else if (allValues groups).length < 2 then (0, 1)
  else if dfBetween groups = 0 ∨ dfWithin groups = 0 then (0, 1)
  else (fStat groups, pBucket (fStat groups))

/-- `total_ss = sum((x - grand_mean) ** 2 for x in all_values)`. -/
def totalSS (groups : List (List ℚ)) (grand : ℚ) : ℚ :=
  ((allValues groups).map (fun x => (x - grand) ^ 2)).sum

/-- `calculate_eta_squared(groups)` from `liwc_Anova_results_table.py`
(`total_ss` and `between_ss` are the named definitions `totalSS` and `ssb`). -/
def calculate_eta_squared (groups : List (List ℚ)) : ℚ :=
  if (allValues groups).length < 2 then 0
  else if 0 < totalSS groups (grandMean groups)
    then ssb groups (grandMean groups) / totalSS groups (grandMean groups)
  else 0

/-- One row of LIWC percentage columns, the inputs of the derived score in
`empathy_score.py`. -/
structure LiwcRow where
  second_person : ℚ
  negative_emotion : ℚ
  cognitive_processes : ℚ
  insight : ℚ
  first_person_singular : ℚ

/-- `calculate_new_empathy_score` from `empathy_score.py` (the per-row
arithmetic of the vectorised pandas expression). -/
def calculate_new_empathy_score (r : LiwcRow) : ℚ :=
  r.second_person * 1.5 + r.negative_emotion * 1.0
    + (r.cognitive_processes + r.insight) * 1.2
    - r.first_person_singular * 2.0

/-- What `row['empathy_score']` can do for a row yielded by `csv.DictReader`:
`str s` — the cell holds the string `s` (then `float(s)` parses or raises
`ValueError`, caught); `missing` — the dict has no `empathy_score` key, as
when the header lacks the column (`KeyError`, caught); `noneFill` — the
header has the column but the data line is short, so `DictReader` fills the
cell with its `restval` of `None` (then `float(None)` raises `TypeError`,
which `except (ValueError, KeyError)` does NOT catch). -/
inductive ScoreCell where
  | str (s : String)
  | missing
  | noneFill
  deriving DecidableEq

/-- One raw CSV row as `csv.DictReader` yields it to `load_data`: the
`empathy_score` cell (see `ScoreCell`), plus the remaining cells, carried
through unchanged. -/
structure CsvRow where
  empathy_score : ScoreCell
  rest : List (String × String)
  deriving DecidableEq

/-- A row kept by `load_data`: the `empathy_score` cell replaced by its
parsed numeric value, the remaining cells untouched. -/
structure ParsedCsvRow where
  empathy_score : ℚ
  rest : List (String × String)
  deriving DecidableEq

/-- `load_data` from `liwc_Anova_results_table.py`, abstracted over the CSV
file contents (`rows`) and over Python's `float` string parser (`parseF`,
where `none` models a `ValueError`).  The `try/except (ValueError, KeyError):
continue` body keeps the rows whose `empathy_score` cell is a string that
parses and skips string cells that fail to parse and rows without the key —
but a `None`-filled cell makes `float(None)` raise `TypeError`, which the
`except` clause does not catch, so the whole call raises and the rows
already collected are lost (`Except.error`). -/
def load_data (parseF : String → Option ℚ) : List CsvRow → Except String (List ParsedCsvRow)
  | [] => Except.ok []
  | r :: rs =>
    match r.empathy_score with
    | ScoreCell.missing => load_data parseF rs
    | ScoreCell.noneFill => Except.error "TypeError"
    | ScoreCell.str s =>
      match parseF s with
      | none => load_data parseF rs
      | some v => (load_data parseF rs).map (fun l => ⟨v, r.rest⟩ :: l)

/-- One data row as consumed by `analyze_data` (a loaded CSV row; only the
four fields the analysis reads are modelled). -/
structure DataRow where
  empathy_type : String
  attribute_type : String
  attribute_value : String
  empathy_score : ℚ
  deriving DecidableEq

/-- The fixed list `empathy_types = ['affective', 'cognitive', 'motivational']`. -/
def empathy_types : List String := ["affective", "cognitive", "motivational"]

/-- Python's `str.title()` for the ASCII strings this data set uses: a
character is uppercased when the previous character is not alphabetic and
lowercased otherwise. -/
def pyTitle (s : String) : String :=
  String.mk ((s.data.foldl (fun acc c =>
    ((if acc.2 then c.toLower else c.toUpper) :: acc.1, c.isAlpha)) ([], false)).1.reverse)

/-- Python's `round` to an integer in exact arithmetic: round half to even. -/
def pyRoundInt (q : ℚ) : ℤ :=
  let f := ⌊q⌋
  let r := q - f
  if r < 1/2 then f
  else if 1/2 < r then f + 1
  else if f % 2 = 0 then f else f + 1

/-- Python's `round(q, n)` in exact arithmetic (the code rounds exact values
such as 0.001 whose float rounding agrees with the exact one). -/
def pyRound (q : ℚ) (n : ℕ) : ℚ :=
  (pyRoundInt (q * 10 ^ n) : ℚ) / 10 ^ n

/-- The significance marker and its label, from the p-value
(`analyze_data`, the `if p_value < 0.001: ... else: "ns"` chain). -/
def significanceOf (p : ℚ) : String × String :=
  if p < 0.001 then ("***", "p < 0.001")
  else if p < 0.01 then ("**", "p < 0.01")
  else if p < 0.05 then ("*", "p < 0.05")
  else ("ns", "p ≥ 0.05")

/-- The effect-size label from eta-squared (`analyze_data`). -/
def effectSizeOf (eta : ℚ) : String :=
  if 0.14 ≤ eta then "Large"
  else if 0.06 ≤ eta then "Medium"
  else "Small"

/-- First-occurrence deduplication: the key order of a Python dict built by
inserting each list element in turn, used to model both
`defaultdict` iteration order and `list(set(...))` (whose order Python
leaves unspecified; no claim depends on it). -/
def insertionKeys (l : List String) : List String :=
  l.foldl (fun acc v => if v ∈ acc then acc else acc ++ [v]) []

/-- `attribute_types = list(set(row['attribute_type'] for row in data))`. -/
def attrTypesOf (data : List DataRow) : List String :=
  insertionKeys (data.map (fun r => r.attribute_type))

/-- The `groups_dict` built in `analyze_data`: for each distinct
`attribute_value` (in insertion order), the list of that value's
`empathy_score`s. -/
def groupsDict (attr_data : List DataRow) : List (String × List ℚ) :=
  (insertionKeys (attr_data.map (fun r => r.attribute_value))).map
    (fun v => (v, (attr_data.filter (fun r => r.attribute_value == v)).map
      (fun r => r.empathy_score)))

/-- One emitted ANOVA record.  The purely presentational fields
`Group_Details`, `Overall_Mean` and `Overall_Std` are omitted: the last two
feed `statistics.stdev`, whose square root has no exact rational value, and
none of the three is mentioned by any claim. -/
structure AnovaResult where
  Empathy_Type : String
  Attribute_Type : String
  F_Statistic : ℚ
  p_Value : ℚ
  Significance : String
  Sig_Level : String
  Eta_Squared : ℚ
  Effect_Size : String
  Total_N : ℕ
  Groups : ℕ
  deriving DecidableEq

/-- The comparison groups `analyze_data` builds for one
(empathy type, attribute type) pair: group the pair's rows by
`attribute_value` and keep the non-empty groups. -/
def groupsFor (data : List DataRow) (et atype : String) : List (List ℚ) :=
  let attr_data := (data.filter (fun r => r.empathy_type == et)).filter
    (fun r => r.attribute_type == atype)
  ((groupsDict attr_data).map (fun p => p.2)).filter (fun g => decide (0 < g.length))

/-- The record `analyze_data` appends for one qualifying
(empathy type, attribute type) pair. -/
def resultFor (data : List DataRow) (et atype : String) : AnovaResult :=
  let attr_data := (data.filter (fun r => r.empathy_type == et)).filter
    (fun r => r.attribute_type == atype)
  let groups := groupsFor data et atype
  let fp := calculate_f_statistic groups
  let eta := calculate_eta_squared groups
  let sig := significanceOf fp.2
  { Empathy_Type := pyTitle et
    Attribute_Type := pyTitle atype
    F_Statistic := pyRound fp.1 3
    p_Value := pyRound fp.2 4
    Significance := sig.1
    Sig_Level := sig.2
    Eta_Squared := pyRound eta 3
    Effect_Size := effectSizeOf eta
    Total_N := (attr_data.map (fun r => r.empathy_score)).length
    Groups := groups.length }

/-- `analyze_data` from `liwc_Anova_results_table.py`: for each of the three
empathy types and each attribute type, filter the matching rows, group them
by attribute value, and when at least two non-empty groups exist emit one
record with the F statistic, p-value bucket, significance marker, eta-squared
and effect-size label. -/
def analyze_data (data : List DataRow) : List AnovaResult :=
  empathy_types.flatMap (fun et =>
    let empathy_data := data.filter (fun r => r.empathy_type == et)
    (attrTypesOf data).filterMap (fun atype =>
      let attr_data := empathy_data.filter (fun r => r.attribute_type == atype)
      if 0 < attr_data.length then
        let groups := ((groupsDict attr_data).map (fun p => p.2)).filter
          (fun g => decide (0 < g.length))
        if 2 ≤ groups.length then some (resultFor data et atype) else none
      else none))

/-- A concrete stand-in for Python's `float` parser, for the C8 witness. -/
def parseEx : String → Option ℚ := fun s => if s = "1.5" then some (3/2) else none

/-- Concrete CSV rows for the C8 witness: one parsable row, one unparsable
row, one row with the column missing — no `None`-filled cell. -/
def csvRowsEx : List CsvRow :=
  [⟨ScoreCell.str "1.5", [("attribute_type", "age")]⟩,
   ⟨ScoreCell.str "oops", []⟩, ⟨ScoreCell.missing, []⟩]

/-- The parsed row `load_data` keeps from `csvRowsEx`. -/
def parsedEx : ParsedCsvRow := ⟨3/2, [("attribute_type", "age")]⟩

/-- Concrete CSV rows for the C8 counterexample: a parsable row followed by a
short row whose `empathy_score` cell was filled with `None` by
`csv.DictReader`. -/
def csvRowsCrashEx : List CsvRow :=
  [⟨ScoreCell.str "1.5", []⟩, ⟨ScoreCell.noneFill, []⟩]

/-- A concrete two-row dataset for the C9 witness: one empathy type, one
attribute type, two attribute values. -/
def exampleData : List DataRow :=
  [⟨"affective", "age", "young", 0⟩, ⟨"affective", "age", "old", 1⟩]

/-- The single record `analyze_data` emits on `exampleData` (two singleton
groups, so `df_within = 0`, the neutral default F = 0, p = 1 applies, and
eta-squared is 1). -/
def exampleResult : AnovaResult :=
  { Empathy_Type := "Affective"
    Attribute_Type := "Age"
    F_Statistic := 0
    p_Value := 1
    Significance := "ns"
    Sig_Level := "p ≥ 0.05"
    Eta_Squared := 1
    Effect_Size := "Large"
    Total_N := 2
    Groups := 2 }

end AIEmpathy

namespace AIEmpathy

-- Sanity checks of the embedding on concrete inputs.
example : mean [1, 2, 3] = 2 := by
  norm_num [mean]
example : calculate_f_statistic [[1]] = (0, 1) := by
  norm_num [calculate_f_statistic]
example : calculate_f_statistic [[(1 : ℚ), 1], [2, 2]] = (0, 0.1) := by
  norm_num [calculate_f_statistic, fStat, msb, msw, allValues, nonemptyGroups, grandMean,
    mean, ssb, ssw, dfBetween, dfWithin, pBucket]
example : calculate_f_statistic [[(1 : ℚ), 2, 3], []] = (0, 0.1) := by
  norm_num [calculate_f_statistic, fStat, msb, msw, allValues, nonemptyGroups, grandMean,
    mean, ssb, ssw, dfBetween, dfWithin, pBucket]
example : calculate_eta_squared [[(1 : ℚ), 1], [2, 2]] = 1 := by
  norm_num [calculate_eta_squared, allValues, nonemptyGroups, grandMean, mean, ssb, totalSS]
example : calculate_f_statistic [[(1 : ℚ)], [2], [], []] = (1/6, 0.1) := by
  norm_num [calculate_f_statistic, fStat, msb, msw, allValues, nonemptyGroups, grandMean,
    mean, ssb, ssw, dfBetween, dfWithin, pBucket]
example : pyTitle "affective" = "Affective" := by decide

/-! ## Shared helper lemmas -/

/-- Every member of `nonemptyGroups groups` is non-empty. -/
lemma length_pos_of_mem_nonemptyGroups {groups : List (List ℚ)} {g : List ℚ}
    (hg : g ∈ nonemptyGroups groups) : 0 < g.length := by
  have := List.of_mem_filter hg
  simpa using this

/-- A flattened list of non-empty lists is at least as long as the outer list. -/
lemma length_le_length_flatten (l : List (List ℚ)) (h : ∀ g ∈ l, 0 < g.length) :
    l.length ≤ l.flatten.length := by
  induction l with
  | nil => simp
  | cons a t ih =>
    simp only [List.flatten_cons, List.length_cons, List.length_append]
    have ha : 0 < a.length := h a (by simp)
    have ht : t.length ≤ t.flatten.length := ih (fun g hg => h g (by simp [hg]))
    omega

/-- Expanding a sum of squared deviations from an arbitrary centre. -/
lemma sum_sq_expand (g : List ℚ) (c : ℚ) :
    (g.map (fun x => (x - c) ^ 2)).sum
      = (g.map (fun x => x ^ 2)).sum - 2 * c * g.sum + (g.length : ℚ) * c ^ 2 := by
  induction g with
  | nil => simp
  | cons a t ih =>
    simp only [List.map_cons, List.sum_cons, List.length_cons, ih]
    push_cast
    ring

/-- Decomposition of a sum of squared deviations about any centre into the
deviations about the group mean plus a shift term. -/
lemma sum_sq_decomp (g : List ℚ) (hg : 0 < g.length) (c : ℚ) :
    (g.map (fun x => (x - c) ^ 2)).sum
      = (g.map (fun x => (x - mean g) ^ 2)).sum + (g.length : ℚ) * (mean g - c) ^ 2 := by
  have hn : (g.length : ℚ) ≠ 0 := Nat.cast_ne_zero.mpr hg.ne'
  rw [sum_sq_expand, sum_sq_expand]
  unfold mean
  field_simp
  ring

/-- The between-groups sum of squares is non-negative for any centre. -/
lemma ssb_nonneg (groups : List (List ℚ)) (c : ℚ) : 0 ≤ ssb groups c := by
  apply List.sum_nonneg
  intro x hx
  obtain ⟨g, -, rfl⟩ := List.mem_map.mp hx
  positivity

/-- The within-groups sum of squares is non-negative. -/
lemma ssw_nonneg (groups : List (List ℚ)) : 0 ≤ ssw groups := by
  apply List.sum_nonneg
  intro x hx
  obtain ⟨g, -, rfl⟩ := List.mem_map.mp hx
  split
  · apply List.sum_nonneg
    intro y hy
    obtain ⟨z, -, rfl⟩ := List.mem_map.mp hy
    positivity
  · exact le_refl 0

/-- The between-groups sum of squares never exceeds the total sum of squares,
whatever the centre. -/
lemma ssb_le_totalSS (groups : List (List ℚ)) (c : ℚ) :
    ssb groups c ≤ totalSS groups c := by
  unfold totalSS allValues ssb
  rw [List.map_flatten, List.sum_flatten, List.map_map]
  apply List.sum_le_sum
  intro g hg
  have hlen := length_pos_of_mem_nonemptyGroups hg
  have hdec := sum_sq_decomp g hlen c
  have hinner : 0 ≤ (g.map (fun x => (x - mean g) ^ 2)).sum := by
    apply List.sum_nonneg
    intro y hy
    obtain ⟨z, -, rfl⟩ := List.mem_map.mp hy
    positivity
  simp only [Function.comp]
  calc (g.length : ℚ) * (mean g - c) ^ 2
      ≤ (g.map (fun x => (x - mean g) ^ 2)).sum + (g.length : ℚ) * (mean g - c) ^ 2 := by
        linarith
    _ = (g.map (fun x => (x - c) ^ 2)).sum := hdec.symm

/-- The p-value bucket only produces the four bucket constants. -/
lemma pBucket_cases (f : ℚ) :
    pBucket f = 0.001 ∨ pBucket f = 0.01 ∨ pBucket f = 0.05 ∨ pBucket f = 0.1 := by
  unfold pBucket
  split_ifs <;> simp

/-- Every bucket constant is at least `0.001`. -/
lemma pBucket_lb (f : ℚ) : (0.001 : ℚ) ≤ pBucket f := by
  unfold pBucket
  split_ifs <;> norm_num

/-- The p-value returned by `calculate_f_statistic` is at least `0.001`. -/
lemma f_statistic_p_lb (groups : List (List ℚ)) :
    (0.001 : ℚ) ≤ (calculate_f_statistic groups).2 := by
  unfold calculate_f_statistic
  split_ifs
  all_goals first
  | exact pBucket_lb _
  | norm_num

/-! ## Claims -/

/-- C3: for every input row the derived score equals
`second_person×1.5 + negative_emotion×1.0 + (cognitive_processes+insight)×1.2
− first_person_singular×2.0`, and the score is linear in each of the five
inputs with the fixed coefficients +1.5, +1.0, +1.2, +1.2, −2.0: shifting one
input by `k` (others held fixed) shifts the score by `k` times that
coefficient. -/
theorem new_empathy_score_formula_linear (r : LiwcRow) (k : ℚ) :
    calculate_new_empathy_score r
        = r.second_person * 1.5 + r.negative_emotion * 1.0
          + (r.cognitive_processes + r.insight) * 1.2 - r.first_person_singular * 2.0
    ∧ calculate_new_empathy_score { r with second_person := r.second_person + k }
        = calculate_new_empathy_score r + k * 1.5
    ∧ calculate_new_empathy_score { r with negative_emotion := r.negative_emotion + k }
        = calculate_new_empathy_score r + k * 1.0
    ∧ calculate_new_empathy_score { r with cognitive_processes := r.cognitive_processes + k }
        = calculate_new_empathy_score r + k * 1.2
    ∧ calculate_new_empathy_score { r with insight := r.insight + k }
        = calculate_new_empathy_score r + k * 1.2
    ∧ calculate_new_empathy_score { r with first_person_singular := r.first_person_singular + k }
        = calculate_new_empathy_score r - k * 2.0 := by
  unfold calculate_new_empathy_score
  refine ⟨rfl, ?_, ?_, ?_, ?_, ?_⟩ <;> simp only [] <;> ring

/-- C1 counterexample: for `[[1,1],[2,2]]` the within-groups sum of squares is
zero and the group means differ (MSB = SSB / df_between = 1), yet
`calculate_f_statistic` returns F = 0 with p = 0.1 — not the claimed
"large but finite F equal to MSB" via an MSW = 1 guard. -/
theorem f_statistic_ssw_zero_counterexample :
    ssw [[(1 : ℚ), 1], [2, 2]] = 0
    ∧ ssb [[(1 : ℚ), 1], [2, 2]] (grandMean [[(1 : ℚ), 1], [2, 2]])
        / (dfBetween [[(1 : ℚ), 1], [2, 2]] : ℚ) = 1
    ∧ calculate_f_statistic [[(1 : ℚ), 1], [2, 2]] = (0, 0.1) := by
  norm_num [calculate_f_statistic, fStat, msb, msw, allValues, nonemptyGroups, grandMean,
    mean, ssb, ssw, dfBetween, dfWithin, pBucket]

/-- C1 amended: for every collection of groups reaching the mean-squares
computation (≥2 groups, ≥2 pooled values, positive `df_within`) whose
within-groups sum of squares is zero, `calculate_f_statistic` is total but
computes MSW = 0 (not 1) and returns F = 0 with p = 0.1 through the
`msw > 0` guard; the `MSW = 1` fallback fires only when `df_within` is
negative. -/
theorem f_statistic_ssw_zero_returns_zero (groups : List (List ℚ))
    (h1 : 2 ≤ groups.length) (h2 : 2 ≤ (allValues groups).length)
    (h3 : 0 < dfWithin groups) (h4 : ssw groups = 0) :
    calculate_f_statistic groups = (0, 0.1) := by
  have hfs : fStat groups = 0 := by
    unfold fStat msw
    rw [if_pos h3, h4, zero_div]
    norm_num
  have hne : ¬(dfBetween groups = 0 ∨ dfWithin groups = 0) := by
    push_neg
    exact ⟨by unfold dfBetween; omega, by omega⟩
  unfold calculate_f_statistic
  rw [if_neg (by omega), if_neg (by omega), if_neg hne, hfs]
  norm_num [pBucket]

/-- Witness for C1's amended theorem at `[[1,1],[2,2]]`. -/
theorem f_statistic_ssw_zero_returns_zero_witness :
    calculate_f_statistic [[(1 : ℚ), 1], [2, 2]] = (0, 0.1) :=
  f_statistic_ssw_zero_returns_zero [[(1 : ℚ), 1], [2, 2]] (by decide)
    (by decide) (by decide)
    (by norm_num [ssw, mean])

/-- C2 counterexample: `[[1,2,3],[]]` has only one non-empty group, yet
`calculate_f_statistic` returns p = 0.1, not the claimed neutral p = 1
(the empty group inflates `len(groups)`, so `df_within = 3 − 2 = 1 ≠ 0` and
the early return is skipped). -/
theorem f_statistic_single_nonempty_counterexample :
    (nonemptyGroups [[(1 : ℚ), 2, 3], []]).length = 1
    ∧ calculate_f_statistic [[(1 : ℚ), 2, 3], []] = (0, 0.1)
    ∧ (0.1 : ℚ) ≠ 1 := by
  refine ⟨by decide, ?_, by norm_num⟩
  norm_num [calculate_f_statistic, fStat, msb, msw, allValues, nonemptyGroups, grandMean,
    mean, ssb, ssw, dfBetween, dfWithin, pBucket]

/-- C2 amended: with fewer than 2 non-empty groups `calculate_f_statistic`
never fails and always returns F = 0, but the p-value is the neutral 1 only
when one of the early returns fires (fewer than 2 groups counting empty ones,
fewer than 2 pooled values, or a zero degree of freedom); otherwise — a lone
non-empty group padded by empty groups — it returns p = 0.1. -/
theorem f_statistic_degenerate_neutral (groups : List (List ℚ))
    (h : (nonemptyGroups groups).length < 2) :
    (calculate_f_statistic groups).1 = 0
    ∧ ((calculate_f_statistic groups).2 = 1 ∨ (calculate_f_statistic groups).2 = 0.1) := by
  unfold calculate_f_statistic
  by_cases hlen : groups.length < 2
  · rw [if_pos hlen]
    exact ⟨rfl, Or.inl rfl⟩
  rw [if_neg hlen]
  by_cases hav : (allValues groups).length < 2
  · rw [if_pos hav]
    exact ⟨rfl, Or.inl rfl⟩
  rw [if_neg hav]
  -- at least 2 pooled values but fewer than 2 non-empty groups: exactly one
  -- non-empty group, whose mean is the grand mean, so SSB = 0.
  have hne : ∃ g, nonemptyGroups groups = [g] := by
    match hg : nonemptyGroups groups with
    | [] =>
      exfalso
      have : allValues groups = [] := by
        unfold allValues
        rw [hg]
        rfl
      rw [this] at hav
      simp at hav
    | [g] => exact ⟨g, rfl⟩
    | g₁ :: g₂ :: t =>
      exfalso
      rw [hg] at h
      simp at h
      omega
  obtain ⟨g, hg⟩ := hne
  have hgav : allValues groups = g := by
    unfold allValues
    rw [hg]
    simp
  have hssb : ssb groups (grandMean groups) = 0 := by
    unfold ssb grandMean
    rw [hg, hgav]
    simp
  by_cases hdf : dfBetween groups = 0 ∨ dfWithin groups = 0
  · rw [if_pos hdf]
    exact ⟨rfl, Or.inl rfl⟩
  · rw [if_neg hdf]
    have hfs : fStat groups = 0 := by
      unfold fStat msb
      rw [hssb, zero_div]
      split_ifs with hm
      · exact zero_div _
      · rfl
    refine ⟨by rw [hfs], Or.inr ?_⟩
    rw [hfs]
    norm_num [pBucket]

/-- Witness for C2's amended theorem at `[[1,2,3],[]]`. -/
theorem f_statistic_degenerate_neutral_witness :
    (calculate_f_statistic [[(1 : ℚ), 2, 3], []]).1 = 0
    ∧ ((calculate_f_statistic [[(1 : ℚ), 2, 3], []]).2 = 1
        ∨ (calculate_f_statistic [[(1 : ℚ), 2, 3], []]).2 = 0.1) :=
  f_statistic_degenerate_neutral [[(1 : ℚ), 2, 3], []] (by decide)

/-- C4: whenever the F computation is reached (2+ non-empty groups, positive
`df_between` and `df_within`), the returned p-value is exactly the bucket of
the returned F statistic (F > 7 → 0.001, F > 4 → 0.01, F > 2.5 → 0.05,
else 0.1). -/
theorem f_statistic_p_is_bucket_of_f (groups : List (List ℚ))
    (h1 : 2 ≤ (nonemptyGroups groups).length)
    (h2 : 0 < dfBetween groups) (h3 : 0 < dfWithin groups) :
    (calculate_f_statistic groups).2 = pBucket (calculate_f_statistic groups).1 := by
  have hlen : 2 ≤ groups.length := by
    unfold dfBetween at h2
    omega
  have hav : 2 ≤ (allValues groups).length := by
    have hflat := length_le_length_flatten (nonemptyGroups groups)
      (fun g hg => length_pos_of_mem_nonemptyGroups hg)
    unfold allValues
    omega
  unfold calculate_f_statistic
  rw [if_neg (by omega), if_neg (by omega),
    if_neg (by push_neg; exact ⟨by omega, by omega⟩)]

/-- Witness for C4 at `[[1,2],[3,4]]`. -/
theorem f_statistic_p_is_bucket_of_f_witness :
    (calculate_f_statistic [[(1 : ℚ), 2], [3, 4]]).2
      = pBucket (calculate_f_statistic [[(1 : ℚ), 2], [3, 4]]).1 :=
  f_statistic_p_is_bucket_of_f [[(1 : ℚ), 2], [3, 4]] (by decide) (by decide) (by decide)

/-- The mean square within is non-negative on both branches of its guard. -/
lemma msw_nonneg (groups : List (List ℚ)) : 0 ≤ msw groups := by
  unfold msw
  split_ifs with h
  · refine div_nonneg (ssw_nonneg groups) ?_
    exact_mod_cast h.le
  · norm_num

/-- The computed F statistic is non-negative once at least two groups exist. -/
lemma fStat_nonneg (groups : List (List ℚ)) (h : 2 ≤ groups.length) :
    0 ≤ fStat groups := by
  unfold fStat
  split_ifs with hm
  · refine div_nonneg ?_ hm.le
    unfold msb
    refine div_nonneg (ssb_nonneg _ _) ?_
    have hz : (0 : ℤ) ≤ dfBetween groups := by
      unfold dfBetween
      omega
    exact_mod_cast hz
  · exact le_refl 0

/-- C10: `calculate_f_statistic` is total (it is a Lean function, so every
branch is defined), its F component is never negative, its p component is one
of the five constants 0.001, 0.01, 0.05, 0.1, 1, and p = 1 happens only via
the early neutral-default returns (fewer than 2 groups, fewer than 2 pooled
values, or a zero degree of freedom). -/
theorem f_statistic_total_and_range (groups : List (List ℚ)) :
    0 ≤ (calculate_f_statistic groups).1
    ∧ ((calculate_f_statistic groups).2 = 0.001 ∨ (calculate_f_statistic groups).2 = 0.01
        ∨ (calculate_f_statistic groups).2 = 0.05 ∨ (calculate_f_statistic groups).2 = 0.1
        ∨ (calculate_f_statistic groups).2 = 1)
    ∧ ((calculate_f_statistic groups).2 = 1
        → groups.length < 2 ∨ (allValues groups).length < 2
          ∨ dfBetween groups = 0 ∨ dfWithin groups = 0) := by
  unfold calculate_f_statistic
  split_ifs with h1 h2 h3
  · exact ⟨le_refl 0, Or.inr (Or.inr (Or.inr (Or.inr rfl))), fun _ => Or.inl h1⟩
  · exact ⟨le_refl 0, Or.inr (Or.inr (Or.inr (Or.inr rfl))), fun _ => Or.inr (Or.inl h2)⟩
  · exact ⟨le_refl 0, Or.inr (Or.inr (Or.inr (Or.inr rfl))),
      fun _ => Or.inr (Or.inr h3)⟩
  · refine ⟨fStat_nonneg groups (by omega), ?_, ?_⟩
    · rcases pBucket_cases (fStat groups) with h | h | h | h
      · exact Or.inl h
      · exact Or.inr (Or.inl h)
      · exact Or.inr (Or.inr (Or.inl h))
      · exact Or.inr (Or.inr (Or.inr (Or.inl h)))
    · intro hp
      exfalso
      have hp' : pBucket (fStat groups) = 1 := hp
      rcases pBucket_cases (fStat groups) with h | h | h | h <;>
        rw [h] at hp' <;> norm_num at hp'

/-- Witness for C10 at `[[1]]`: p = 1 there, and indeed an early-return
condition holds. -/
theorem f_statistic_total_and_range_witness :
    [[(1 : ℚ)]].length < 2 ∨ (allValues [[(1 : ℚ)]]).length < 2
      ∨ dfBetween [[(1 : ℚ)]] = 0 ∨ dfWithin [[(1 : ℚ)]] = 0 :=
  (f_statistic_total_and_range [[(1 : ℚ)]]).2.2 (by rfl)

/-- C5: once at least 2 pooled values exist, `calculate_eta_squared` returns
SSB / SST (SST the total sum of squares about the grand mean over the pooled
values, SSB the size-weighted sum of squared group-mean deviations), returns
0 when SST = 0, and the result always lies in [0, 1]. -/
theorem eta_squared_ratio_and_bounds (groups : List (List ℚ))
    (h : 2 ≤ (allValues groups).length) :
    (totalSS groups (grandMean groups) = 0 → calculate_eta_squared groups = 0)
    ∧ (0 < totalSS groups (grandMean groups) →
        calculate_eta_squared groups
          = ssb groups (grandMean groups) / totalSS groups (grandMean groups))
    ∧ 0 ≤ calculate_eta_squared groups ∧ calculate_eta_squared groups ≤ 1 := by
  have hce : calculate_eta_squared groups
      = if 0 < totalSS groups (grandMean groups)
        then ssb groups (grandMean groups) / totalSS groups (grandMean groups) else 0 := by
    unfold calculate_eta_squared
    rw [if_neg (by omega)]
  refine ⟨?_, ?_, ?_, ?_⟩
  · intro h0
    rw [hce, if_neg (by rw [h0]; exact lt_irrefl 0)]
  · intro hpos
    rw [hce, if_pos hpos]
  · rw [hce]
    split_ifs with hpos
    · exact div_nonneg (ssb_nonneg _ _) hpos.le
    · exact le_refl 0
  · rw [hce]
    split_ifs with hpos
    · rw [div_le_one hpos]
      exact ssb_le_totalSS _ _
    · norm_num

/-- Witness for C5 at `[[1,2],[3]]`. -/
theorem eta_squared_ratio_and_bounds_witness :
    0 ≤ calculate_eta_squared [[(1 : ℚ), 2], [3]]
    ∧ calculate_eta_squared [[(1 : ℚ), 2], [3]] ≤ 1 :=
  ⟨(eta_squared_ratio_and_bounds [[(1 : ℚ), 2], [3]] (by decide)).2.2.1,
   (eta_squared_ratio_and_bounds [[(1 : ℚ), 2], [3]] (by decide)).2.2.2⟩

/-- Flattening respects permutation of the outer list. -/
lemma flatten_perm_of_perm {l₁ l₂ : List (List ℚ)} (h : l₁.Perm l₂) :
    l₁.flatten.Perm l₂.flatten := by
  induction h with
  | nil => exact List.Perm.refl _
  | cons a _ ih =>
    simp only [List.flatten_cons]
    exact ih.append_left a
  | swap a b t =>
    simp only [List.flatten_cons]
    rw [← List.append_assoc, ← List.append_assoc]
    exact List.perm_append_comm.append_right _
  | trans _ _ ih1 ih2 => exact ih1.trans ih2

/-- C6: `calculate_eta_squared` is invariant under permutation of the list of
groups. -/
theorem eta_squared_perm_invariant (g₁ g₂ : List (List ℚ)) (h : g₁.Perm g₂) :
    calculate_eta_squared g₁ = calculate_eta_squared g₂ := by
  have hne : (nonemptyGroups g₁).Perm (nonemptyGroups g₂) := h.filter _
  have hav : (allValues g₁).Perm (allValues g₂) := flatten_perm_of_perm hne
  have hlen : (allValues g₁).length = (allValues g₂).length := hav.length_eq
  have hgm : grandMean g₁ = grandMean g₂ := by
    unfold grandMean mean
    rw [hav.sum_eq, hlen]
  have hts : totalSS g₁ (grandMean g₁) = totalSS g₂ (grandMean g₂) := by
    unfold totalSS
    rw [hgm]
    exact (hav.map _).sum_eq
  have hsb : ssb g₁ (grandMean g₁) = ssb g₂ (grandMean g₂) := by
    unfold ssb
    rw [hgm]
    exact (hne.map _).sum_eq
  unfold calculate_eta_squared
  rw [hlen, hts, hsb]

/-- Witness for C6: swapping two concrete groups leaves eta-squared equal. -/
theorem eta_squared_perm_invariant_witness :
    calculate_eta_squared [[(1 : ℚ), 2], [3]] = calculate_eta_squared [[(3 : ℚ)], [1, 2]] :=
  eta_squared_perm_invariant _ _ (List.Perm.swap _ _ _)

/-- On inputs without a `None`-filled cell, `load_data` succeeds and returns
the parsable rows, converted, in order. -/
lemma load_data_ok_of_no_noneFill (parseF : String → Option ℚ) (rows : List CsvRow)
    (h : ∀ r ∈ rows, r.empathy_score ≠ ScoreCell.noneFill) :
    load_data parseF rows = Except.ok (rows.filterMap (fun r =>
      match r.empathy_score with
      | ScoreCell.str s => (parseF s).map (fun v => (⟨v, r.rest⟩ : ParsedCsvRow))
      | _ => none)) := by
  induction rows with
  | nil => rfl
  | cons r rs ih =>
    have hr := h r (by simp)
    have hrs := ih (fun x hx => h x (by simp [hx]))
    rw [load_data, List.filterMap_cons]
    cases hc : r.empathy_score with
    | missing => simp [hc, hrs]
    | noneFill => exact absurd hc hr
    | str s =>
      cases hps : parseF s with
      | none => simp [hc, hps, hrs]
      | some v =>
        simp [hc, hps, hrs]
        rfl

/-- C8 counterexample: the claim says `load_data` never raises for a
malformed or missing-field row, but on a CSV whose header has the
`empathy_score` column while a data line is one field short,
`csv.DictReader` fills the cell with `None` and `float(None)` raises
`TypeError` — not caught by `except (ValueError, KeyError)` — so the call
fails and even the previously collected parsable row is lost. -/
theorem load_data_typeerror_counterexample :
    load_data parseEx csvRowsCrashEx = Except.error "TypeError" := by rfl

/-- C8 amended: for every input CSV none of whose rows carries a
`None`-filled `empathy_score` cell, `load_data` returns (without failing)
exactly those rows whose cell is a string that parses as a number, with the
cell converted to its numeric value, silently dropping rows whose string
cell fails to parse (`ValueError`) or whose key is absent (`KeyError`); but
a short data row, whose cell `csv.DictReader` fills with `None`, makes
`float(None)` raise an uncaught `TypeError` and the whole call fail. -/
theorem load_data_keeps_exactly_parsed_rows (parseF : String → Option ℚ)
    (rows : List CsvRow) (h : ∀ r ∈ rows, r.empathy_score ≠ ScoreCell.noneFill)
    (p : ParsedCsvRow) :
    ∃ l, load_data parseF rows = Except.ok l
      ∧ (p ∈ l ↔ ∃ r ∈ rows, ∃ s, r.empathy_score = ScoreCell.str s
          ∧ parseF s = some p.empathy_score ∧ p.rest = r.rest) := by
  refine ⟨_, load_data_ok_of_no_noneFill parseF rows h, ?_⟩
  rw [List.mem_filterMap]
  constructor
  · rintro ⟨r, hr, heq⟩
    cases hc : r.empathy_score with
    | missing =>
      rw [hc] at heq
      simp at heq
    | noneFill =>
      rw [hc] at heq
      simp at heq
    | str s =>
      rw [hc] at heq
      simp only [Option.map_eq_some'] at heq
      obtain ⟨v, hps, hmk⟩ := heq
      obtain rfl := hmk.symm
      exact ⟨r, hr, s, hc, hps, rfl⟩
  · rintro ⟨r, hr, s, hes, hps, hrest⟩
    refine ⟨r, hr, ?_⟩
    obtain ⟨pv, prest⟩ := p
    simp only at hps hrest
    simp [hes, hps, hrest]

/-- Witness for C8's amended theorem on crash-free concrete rows: the
parsable row is kept, converted; the unparsable and keyless rows are
dropped. -/
theorem load_data_keeps_exactly_parsed_rows_witness :
    ∃ l, load_data parseEx csvRowsEx = Except.ok l
      ∧ (parsedEx ∈ l ↔ ∃ r ∈ csvRowsEx, ∃ s, r.empathy_score = ScoreCell.str s
          ∧ parseEx s = some parsedEx.empathy_score ∧ parsedEx.rest = r.rest) :=
  load_data_keeps_exactly_parsed_rows parseEx csvRowsEx (by decide) parsedEx

/-- Pointwise-equal optional bodies give equal `filterMap`s. -/
lemma filterMap_ext_mem {α β : Type} (l : List α) (f g : α → Option β)
    (h : ∀ a ∈ l, f a = g a) : l.filterMap f = l.filterMap g := by
  induction l with
  | nil => rfl
  | cons a t ih =>
    simp only [List.filterMap_cons, h a (by simp)]
    rw [ih (fun x hx => h x (by simp [hx]))]

/-- A `filterMap` whose body is a guarded `some` is a `filter` then `map`. -/
lemma filterMap_guard_eq_filter_map {α β : Type} (p : α → Bool) (f : α → β) (l : List α) :
    l.filterMap (fun a => if p a then some (f a) else none) = (l.filter p).map f := by
  induction l with
  | nil => rfl
  | cons a t ih =>
    by_cases h : p a
    · simp [List.filterMap_cons, List.filter_cons, h, ih]
    · simp [List.filterMap_cons, List.filter_cons, h, ih]

/-- Pointwise-equal bodies give equal `flatMap`s. -/
lemma flatMap_ext_mem {α β : Type} (l : List α) (f g : α → List β)
    (h : ∀ a ∈ l, f a = g a) : l.flatMap f = l.flatMap g := by
  induction l with
  | nil => rfl
  | cons a t ih =>
    simp only [List.flatMap_cons, h a (by simp)]
    rw [ih (fun x hx => h x (by simp [hx]))]

/-- Structural form of `analyze_data`: one record, built by `resultFor`, for
exactly each (empathy type, attribute type) pair whose grouped data has at
least 2 non-empty groups. -/
lemma analyze_data_eq (data : List DataRow) :
    analyze_data data
      = empathy_types.flatMap (fun et =>
          ((attrTypesOf data).filter
            (fun atype => decide (2 ≤ (groupsFor data et atype).length))).map
            (resultFor data et)) := by
  unfold analyze_data
  apply flatMap_ext_mem
  intro et _
  rw [← filterMap_guard_eq_filter_map]
  apply filterMap_ext_mem
  intro atype _
  by_cases h0 : 0 < ((data.filter (fun r => r.empathy_type == et)).filter
      (fun r => r.attribute_type == atype)).length
  · rw [if_pos h0]
    unfold groupsFor
    simp only [decide_eq_true_eq]
  · rw [if_neg h0]
    have hempty : (data.filter (fun r => r.empathy_type == et)).filter
        (fun r => r.attribute_type == atype) = [] := by
      rcases List.eq_nil_or_concat ((data.filter (fun r => r.empathy_type == et)).filter
        (fun r => r.attribute_type == atype)) with h | ⟨t, a, h⟩
      · exact h
      · exfalso
        rw [h] at h0
        simp at h0
    rw [if_neg ?side]
    case side =>
      unfold groupsFor
      rw [hempty]
      simp [groupsDict, insertionKeys]

/-- C7: for every input dataset, `analyze_data` emits exactly one record —
built by `resultFor` — for each (empathy type, attribute type) pair with at
least 2 non-empty attribute-value groups, in that order, and emits no record
(raising no error) for every pair with fewer than 2 non-empty groups. -/
theorem analyze_data_one_record_per_qualifying_pair (data : List DataRow) :
    analyze_data data
      = empathy_types.flatMap (fun et =>
          ((attrTypesOf data).filter
            (fun atype => decide (2 ≤ (groupsFor data et atype).length))).map
            (resultFor data et)) :=
  analyze_data_eq data

/-- The significance marker of an emitted record comes from `significanceOf`
applied to the pair's p-value. -/
lemma resultFor_significance (data : List DataRow) (et atype : String) :
    (resultFor data et atype).Significance
      = (significanceOf (calculate_f_statistic (groupsFor data et atype)).2).1 := rfl

/-- No p-value of at least 0.001 can produce the `"***"` marker. -/
lemma significanceOf_ne_tripleStar {p : ℚ} (hp : (0.001 : ℚ) ≤ p) :
    (significanceOf p).1 ≠ "***" := by
  unfold significanceOf
  rw [if_neg (not_lt.mpr hp)]
  split_ifs <;> decide

/-- C9: no record emitted by `analyze_data` ever carries the `"***"`
significance marker: the smallest p-value `calculate_f_statistic` returns is
0.001 and the marker requires `p < 0.001` strictly. -/
theorem analyze_data_never_triple_star (data : List DataRow) (r : AnovaResult)
    (hr : r ∈ analyze_data data) : r.Significance ≠ "***" := by
  rw [analyze_data_eq] at hr
  rw [List.mem_flatMap] at hr
  obtain ⟨et, -, hr⟩ := hr
  rw [List.mem_map] at hr
  obtain ⟨atype, -, rfl⟩ := hr
  rw [resultFor_significance]
  exact significanceOf_ne_tripleStar (f_statistic_p_lb _)

/-- Evaluation of `analyze_data` on the concrete two-row dataset. -/
lemma analyze_data_example_eval : analyze_data exampleData = [exampleResult] := by
  have h1 : pyTitle "affective" = "Affective" := by decide
  have h2 : pyTitle "age" = "Age" := by decide
  have hat : attrTypesOf exampleData = ["age"] := by rfl
  have hgfa : groupsFor exampleData "affective" "age" = [[0], [1]] := by rfl
  have hgfc : groupsFor exampleData "cognitive" "age" = [] := by rfl
  have hgfm : groupsFor exampleData "motivational" "age" = [] := by rfl
  have hfp : calculate_f_statistic [[(0 : ℚ)], [1]] = (0, 1) := by rfl
  have heta : calculate_eta_squared [[(0 : ℚ)], [1]] = 1 := by
    norm_num [calculate_eta_squared, allValues, nonemptyGroups, grandMean, mean, ssb, totalSS]
  have hattr : (exampleData.filter (fun r => r.empathy_type == "affective")).filter
      (fun r => r.attribute_type == "age") = exampleData := by rfl
  have hres : resultFor exampleData "affective" "age" = exampleResult := by
    norm_num [resultFor, hgfa, hattr, hfp, heta, h1, h2, significanceOf,
      effectSizeOf, pyRound, pyRoundInt, exampleResult, AnovaResult.mk.injEq,
      List.length_map, show exampleData.length = 2 from rfl]
  rw [analyze_data_eq, hat]
  simp [empathy_types, hgfa, hgfc, hgfm, hres]

/-- Witness for C9: the record emitted on `exampleData` does not carry "***". -/
theorem analyze_data_never_triple_star_witness :
    exampleResult.Significance ≠ "***" :=
  analyze_data_never_triple_star exampleData exampleResult
    (by rw [analyze_data_example_eval]; exact List.mem_singleton.mpr rfl)

end AIEmpathy
